import Mathlib

/-!
Shallow embedding of the video-source fallback controller of the
cloud-movie-stream repository.

Two variants of the player component are modelled, because the claims cite
both:

* namespace `V1` embeds the first document of
  `src/src/components/VideoPlayer.tsx`: a video.js based player over six
  hardcoded embed URLs, with a per-source retry budget of three attempts
  (`onError` / `retryCountRef`) before `handleError` advances to the next
  source.
* namespace `V5` embeds `src/unnamed/part_005`: a player over eight
  sources (two of kind "direct", six of kind "embed"), with an iframe
  fallback for embed sources, a 10000 ms timeout for direct loads
  (`tryDirectVideo`), a manual `switchToNextSource` command and guarded
  direct-playback commands.

Each React `useState` cell becomes a record field; each event handler of
the component becomes a function on the state record.  Strings, messages
and branch conditions are taken verbatim from the source.
-/

/-- UI phases of the controller, as named by the specification.  The code
stores the phase as a combination of boolean flags; each machine below has
a `phase` function mapping its flag record to this type. -/
inductive Phase
  | INIT
  | LOADING
  | PLAYING_DIRECT
  | PLAYING_EMBED
  | BUFFERING
  | FAILED_SOURCE
  | EXHAUSTED
  deriving DecidableEq, Repr

namespace V1

/-- Quality level entries produced by the video.js quality plugin
(interface QualityLevel in VideoPlayer.tsx). -/
structure QualityLevel where
  index : Nat
  label : String
  height : Nat
  width : Nat
  bandwidth : Nat
  deriving DecidableEq, Repr

/-- Subtitle track entries (interface SubtitleTrack in VideoPlayer.tsx). -/
structure SubtitleTrack where
  index : Nat
  label : String
  language : String
  deriving DecidableEq, Repr

/-- The hardcoded candidate URL list (`videoSources`, VideoPlayer.tsx lines
70 to 77), built by template interpolation from the movie id. -/
def videoSources (movieId : Nat) : List String :=
  [ "https://autoembed.co/movie/tmdb/" ++ Nat.repr movieId,
    "https://player.smashy.stream/movie/" ++ Nat.repr movieId,
    "https://embed.su/embed/movie/" ++ Nat.repr movieId,
    "https://vidsrc.xyz/embed/movie?tmdb=" ++ Nat.repr movieId,
    "https://2embed.org/embed/movie?tmdb=" ++ Nat.repr movieId,
    "https://www.2embed.to/embed/tmdb/movie?id=" ++ Nat.repr movieId ]

/-- The six constant URL stems of `videoSources`; each candidate URL is a
stem followed by the decimal representation of the movie id. -/
def urlStems : List String :=
  [ "https://autoembed.co/movie/tmdb/",
    "https://player.smashy.stream/movie/",
    "https://embed.su/embed/movie/",
    "https://vidsrc.xyz/embed/movie?tmdb=",
    "https://2embed.org/embed/movie?tmdb=",
    "https://www.2embed.to/embed/tmdb/movie?id=" ]

/-- The `useState` cells of the component (VideoPlayer.tsx lines 44 to 60)
plus the `retryCountRef` ref (line 67).  Media quantities are modelled as
rationals. -/
structure State where
  currentSource : Nat
  hasError : Bool
  errorMessage : String
  isLoading : Bool
  showControls : Bool
  showSettings : Bool
  currentQuality : String
  currentSubtitle : String
  qualityLevels : List QualityLevel
  subtitleTracks : List SubtitleTrack
  isPlaying : Bool
  isMuted : Bool
  volume : ℚ
  progress : ℚ
  duration : ℚ
  isBuffering : Bool
  playbackRate : ℚ
  retryCount : Nat
  deriving DecidableEq, Repr

/-- The initial values of the `useState` cells and of `retryCountRef`. -/
def init : State :=
  { currentSource := 0
    hasError := false
    errorMessage := ""
    isLoading := true
    showControls := true
    showSettings := false
    currentQuality := "auto"
    currentSubtitle := "off"
    qualityLevels := []
    subtitleTracks := []
    isPlaying := false
    isMuted := false
    volume := 1
    progress := 0
    duration := 0
    isBuffering := false
    playbackRate := 1
    retryCount := 0 }

/-- `handleError` (VideoPlayer.tsx lines 88 to 99).  `N` is
`videoSources.length`; `sourceIndex` is the argument passed by the caller.
If sources remain it advances `currentSource` and records a per-source
failure message, otherwise it enters the terminal error state. -/
def handleError (N : Nat) (sourceIndex : Nat) (s : State) : State :=
  if sourceIndex < N - 1 then
    { s with currentSource := sourceIndex + 1
             errorMessage := "Source " ++ Nat.repr (sourceIndex + 1) ++ " failed, trying next..." }
  else
    { s with hasError := true
             isLoading := false
             errorMessage := "All video sources failed to load. Please try again later." }

/-- The synchronous head of `trySource` (VideoPlayer.tsx lines 125 to 138):
the out-of-range guard redirects to `handleError`; otherwise the attempt
begins by setting the loading flags and clearing the error message.  The
video.js listener swapping is not state visible. -/
def trySourceStart (N : Nat) (s : State) : State :=
  if s.currentSource ≥ N then handleError N s.currentSource s
  else
    { s with isLoading := true
             hasError := false
             errorMessage := "" }

/-- The `onError` listener (VideoPlayer.tsx lines 178 to 186): it
increments `retryCountRef`; below three it schedules a retry of the same
source index, otherwise it calls `handleError` and resets the counter. -/
def onErrorEvt (N : Nat) (s : State) : State :=
  if s.retryCount + 1 < 3 then
    { s with retryCount := s.retryCount + 1 }
  else
    { handleError N s.currentSource s with retryCount := 0 }

/-- The `onLoadedData` listener (VideoPlayer.tsx lines 188 to 193): a
successful load clears the flags, captures the duration and resets the
retry counter.  It does not touch `errorMessage`. -/
def onLoadedData (d : ℚ) (s : State) : State :=
  { s with hasError := false
           isLoading := false
           duration := d
           retryCount := 0 }

/-- `resetPlayer` (VideoPlayer.tsx lines 419 to 425), wired to the
Try Again button. -/
def resetPlayer (s : State) : State :=
  { s with currentSource := 0
           hasError := false
           errorMessage := ""
           isLoading := true
           retryCount := 0 }

/-- `handleProgressChange` (VideoPlayer.tsx lines 358 to 363): the seek
command of this variant.  It has no phase guard at all, only the null
check on `playerRef.current`, modelled by the `playerAttached` flag (the
player object is created by the mount effect and survives loading and the
error view, which are not effect dependencies).  When the player exists
it seeks the player and writes the position into the `progress` state. -/
def handleProgressChange (playerAttached : Bool) (v : ℚ) (s : State) : State :=
  if playerAttached then { s with progress := v } else s

/-- Phase of a V1 state.  This variant has no embed mode: every source is
fed to the video.js player, so the playing phase is always direct. -/
def phase (s : State) : Phase :=
  if s.hasError then .EXHAUSTED
  else if s.isLoading then .LOADING
  else if s.isBuffering then .BUFFERING
  else .PLAYING_DIRECT

/-- One failing attempt: the attempt starts (`trySource`) and the player
reports an error (`onError`). -/
def failedAttempt (N : Nat) (s : State) : State :=
  onErrorEvt N (trySourceStart N s)

/-- State after `k` consecutive failing attempts from the initial state,
with `N` candidate sources. -/
def failIter (N k : Nat) : State :=
  (failedAttempt N)^[k] init

/-- Projection to the fallback control fields: current index, error flag,
error message, loading flag, retry counter. -/
def ctrlProj (s : State) : Nat × Bool × String × Bool × Nat :=
  (s.currentSource, s.hasError, s.errorMessage, s.isLoading, s.retryCount)

end V1

namespace V5

/-- Kind tag of a candidate source (`type: 'direct' | 'embed'` in the
`videoSources` array of part_005). -/
inductive SourceKind
  | direct
  | embed
  deriving DecidableEq, Repr

/-- One candidate source entry of part_005: `{ type, url, name }`. -/
structure Source where
  kind : SourceKind
  url : String
  name : String
  deriving DecidableEq, Repr

/-- Default used to model JavaScript array indexing in range. -/
def dfltSource : Source := ⟨.embed, "", ""⟩

/-- The hardcoded candidate list of part_005 (lines 61 to 104): two direct
sources followed by six embed sources, all built from the movie id. -/
def videoSources (movieId : Nat) : List Source :=
  [ ⟨.direct, "https://vidsrc.to/embed/movie/" ++ Nat.repr movieId, "VidSrc Direct"⟩,
    ⟨.direct, "https://multiembed.mov/directstream.php?video_id=" ++ Nat.repr movieId ++ "&tmdb=1", "MultiEmbed Direct"⟩,
    ⟨.embed, "https://autoembed.co/movie/tmdb/" ++ Nat.repr movieId, "AutoEmbed"⟩,
    ⟨.embed, "https://player.smashy.stream/movie/" ++ Nat.repr movieId, "Smashy Stream"⟩,
    ⟨.embed, "https://embed.su/embed/movie/" ++ Nat.repr movieId, "Embed.su"⟩,
    ⟨.embed, "https://vidsrc.xyz/embed/movie?tmdb=" ++ Nat.repr movieId, "VidSrc XYZ"⟩,
    ⟨.embed, "https://2embed.org/embed/movie?tmdb=" ++ Nat.repr movieId, "2Embed"⟩,
    ⟨.embed, "https://www.2embed.to/embed/tmdb/movie?id=" ++ Nat.repr movieId, "2Embed.to"⟩ ]

/-- Name of the candidate at an index, as `videoSources[i].name`. -/
def nameAt (cs : List Source) (i : Nat) : String :=
  (cs.getD i dfltSource).name

/-- The fixed per-attempt timeout of `tryDirectVideo`
(part_005 lines 252 to 258: `setTimeout(..., 10000)`), in milliseconds. -/
def timeoutMs : Nat := 10000

/-- The `useState` cells of part_005 (lines 33 to 51), the `retryCountRef`
ref, and the observable state of the underlying HTML video element that
the direct-playback commands mutate. -/
structure State where
  currentSource : Nat
  hasError : Bool
  errorMessage : String
  isLoading : Bool
  useIframe : Bool
  canPlayDirectly : Bool
  retryCount : Nat
  isPlaying : Bool
  isMuted : Bool
  volume : ℚ
  progress : ℚ
  duration : ℚ
  isBuffering : Bool
  playbackRate : ℚ
  videoPaused : Bool
  videoMuted : Bool
  videoVolume : ℚ
  videoTime : ℚ
  videoRate : ℚ
  deriving DecidableEq, Repr

/-- Initial values of the `useState` cells, of `retryCountRef`, and of a
fresh video element. -/
def init : State :=
  { currentSource := 0
    hasError := false
    errorMessage := ""
    isLoading := true
    useIframe := false
    canPlayDirectly := false
    retryCount := 0
    isPlaying := false
    isMuted := false
    volume := 1
    progress := 0
    duration := 0
    isBuffering := false
    playbackRate := 1
    videoPaused := true
    videoMuted := false
    videoVolume := 1
    videoTime := 0
    videoRate := 1 }

/-- `handleError` (part_005 lines 147 to 159).  `sourceIndex` is the
argument supplied by the caller, which for a stale callback is the index
captured by the closure of the superseded attempt. -/
def handleError (cs : List Source) (sourceIndex : Nat) (s : State) : State :=
  if sourceIndex < cs.length - 1 then
    { s with currentSource := sourceIndex + 1
             errorMessage := nameAt cs sourceIndex ++ " failed, trying next..."
             isLoading := true }
  else
    { s with hasError := true
             isLoading := false
             errorMessage := "All video sources failed to load. Please try again later." }

/-- The synchronous head of `tryLoadSource` (part_005 lines 162 to 174):
the out-of-range guard redirects to `handleError`; otherwise the flags are
set for a fresh attempt at `currentSource`. -/
def startLoad (cs : List Source) (s : State) : State :=
  if s.currentSource ≥ cs.length then handleError cs s.currentSource s
  else
    { s with isLoading := true
             hasError := false
             errorMessage := "Loading " ++ nameAt cs s.currentSource ++ "..."
             useIframe := false
             canPlayDirectly := false }

/-- The iframe fallback branch of `tryLoadSource` (part_005 lines 184 to
189), taken for an embed source when `extractDirectVideoUrl` yields
nothing: the attempt completes immediately, no timer is created and no
failure signal is possible. -/
def embedFallback (s : State) : State :=
  { s with useIframe := true
           isLoading := false
           canPlayDirectly := false }

/-- The `onLoadedData` listener of `tryDirectVideo` (part_005 lines 211 to
219): a successful direct load. -/
def loadedData (d : ℚ) (s : State) : State :=
  { s with isLoading := false
           canPlayDirectly := true
           useIframe := false
           duration := d
           retryCount := 0 }

/-- The `onCanPlay` listener (part_005 lines 231 to 233). -/
def canPlayEvt (s : State) : State :=
  { s with isBuffering := false }

/-- A successful direct load as observed after the media fires
`loadeddata` and then `canplay`. -/
def directSuccess (d : ℚ) (s : State) : State :=
  canPlayEvt (loadedData d s)

/-- Failure of the in-flight direct load at the current index: the
`onError` listener or the 10 second timeout rejects the promise, the
`catch` of `tryLoadSource` (lines 191 to 194) calls `handleError` with the
attempted index. -/
def directFail (cs : List Source) (s : State) : State :=
  handleError cs s.currentSource s

/-- Expiry of the 10000 ms timer of `tryDirectVideo` (lines 252 to 258)
while the attempt is still unresolved: the promise is rejected and
`handleError` runs for the current index.  (The `if (isLoading)` guard
reads a closure captured at the initial render, where `isLoading` is
`true`.) -/
def timeoutExpire (cs : List Source) (s : State) : State :=
  handleError cs s.currentSource s

/-- A stale failure callback: the timer of a superseded attempt at index
`idx` was never cancelled; when it fires, the still-pending promise of
that attempt is rejected and `handleError` runs with the captured index
`idx`, whatever the current state is.  No generation counter exists in
part_005. -/
def staleCallback (cs : List Source) (idx : Nat) (s : State) : State :=
  handleError cs idx s

/-- `switchToNextSource` (part_005 lines 413 to 420), wired to the
Try Next Source buttons. -/
def switchToNextSource (cs : List Source) (s : State) : State :=
  if s.currentSource < cs.length - 1 then
    { s with currentSource := s.currentSource + 1 }
  else
    { s with hasError := true
             errorMessage := "All sources have been tried." }

/-- `resetPlayer` (part_005 lines 403 to 411), wired to the Try Again
button. -/
def resetPlayer (s : State) : State :=
  { s with currentSource := 0
           hasError := false
           errorMessage := ""
           isLoading := true
           useIframe := false
           canPlayDirectly := false
           retryCount := 0 }

/-- Whether the video element is mounted: the JSX renders the error view
when `hasError`, the iframe when `useIframe`, and the video element
otherwise, so `videoRef.current` is non-null exactly in the last case. -/
def videoAttached (s : State) : Bool :=
  !s.hasError && !s.useIframe

/-- The common guard of every direct-playback command in part_005:
`if (!canPlayDirectly || !videoRef.current) return`. -/
def guardDirect (s : State) : Bool :=
  s.canPlayDirectly && videoAttached s

/-- `togglePlay` (part_005 lines 336 to 345). -/
def togglePlay (s : State) : State :=
  if guardDirect s then { s with videoPaused := !s.videoPaused } else s

/-- `toggleMute` (part_005 lines 347 to 350). -/
def toggleMute (s : State) : State :=
  if guardDirect s then { s with videoMuted := !s.videoMuted } else s

/-- `adjustVolume` (part_005 lines 352 to 356). -/
def adjustVolume (delta : ℚ) (s : State) : State :=
  if guardDirect s then
    { s with videoVolume := max 0 (min 1 (s.videoVolume + delta)) }
  else s

/-- `handleVolumeChange` (part_005 lines 358 to 365). -/
def handleVolumeChange (v : ℚ) (s : State) : State :=
  if guardDirect s then
    { s with videoVolume := v
             videoMuted := if 0 < v && s.videoMuted then false else s.videoMuted }
  else s

/-- `skipForward` (part_005 lines 367 to 371). -/
def skipForward (s : State) : State :=
  if guardDirect s then
    { s with videoTime := min s.duration (s.videoTime + 10) }
  else s

/-- `skipBackward` (part_005 lines 373 to 377). -/
def skipBackward (s : State) : State :=
  if guardDirect s then
    { s with videoTime := max 0 (s.videoTime - 10) }
  else s

/-- `handleProgressChange` (part_005 lines 379 to 384): the seek command. -/
def handleProgressChange (v : ℚ) (s : State) : State :=
  if guardDirect s then
    { s with videoTime := v
             progress := v }
  else s

/-- `handlePlaybackRateChange` (part_005 lines 396 to 401); the rate is
modelled as a rational rather than a parsed string. -/
def handlePlaybackRateChange (r : ℚ) (s : State) : State :=
  if guardDirect s then
    { s with videoRate := r
             playbackRate := r }
  else s

/-- Phase of a V5 state.  `hasError` is the terminal error view;
`canPlayDirectly` is direct playback (buffering when the media is
stalled); `useIframe` is the opaque embed mode; `isLoading` is an attempt
in flight. -/
def phase (s : State) : Phase :=
  if s.hasError then .EXHAUSTED
  else if s.canPlayDirectly then
    (if s.isBuffering then .BUFFERING else .PLAYING_DIRECT)
  else if s.useIframe then .PLAYING_EMBED
  else if s.isLoading then .LOADING
  else .INIT

/-- The operations of the component, as trace events.  `staleFail idx` is
the firing of the uncancelled 10 second timer of a superseded attempt at
index `idx` whose promise is still pending (see `staleCallback`): part_005
never clears these timers, so this transition belongs to the alphabet of
the running component. -/
inductive Event
  | startLoad
  | directFail
  | loadedData (d : ℚ)
  | canPlayEvt
  | embedFallback
  | switchNext
  | reset
  | staleFail (idx : Nat)
  | togglePlay
  | toggleMute
  | adjustVolume (q : ℚ)
  | volumeChange (q : ℚ)
  | skipF
  | skipB
  | progressChange (q : ℚ)
  | rateChange (q : ℚ)

/-- Whether an event is the stale-callback transition of a superseded
attempt. -/
def Event.isStale : Event → Bool
  | .staleFail _ => true
  | _ => false

/-- Effect of one event on the session state. -/
def step (cs : List Source) : Event → State → State
  | .startLoad, s => startLoad cs s
  | .directFail, s => directFail cs s
  | .staleFail idx, s => staleCallback cs idx s
  | .loadedData d, s => loadedData d s
  | .canPlayEvt, s => canPlayEvt s
  | .embedFallback, s => embedFallback s
  | .switchNext, s => switchToNextSource cs s
  | .reset, s => resetPlayer s
  | .togglePlay, s => togglePlay s
  | .toggleMute, s => toggleMute s
  | .adjustVolume q, s => adjustVolume q s
  | .volumeChange q, s => handleVolumeChange q s
  | .skipF, s => skipForward s
  | .skipB, s => skipBackward s
  | .progressChange q, s => handleProgressChange q s
  | .rateChange q, s => handlePlaybackRateChange q s

/-- Run a list of events from a state. -/
def run (cs : List Source) (es : List Event) (s : State) : State :=
  es.foldl (fun t e => step cs e t) s

/-- A state is reachable when some event trace leads to it from the
initial state. -/
def Reachable (cs : List Source) (s : State) : Prop :=
  ∃ es : List Event, s = run cs es init

/-- One failing attempt: the attempt starts (`tryLoadSource`) and its
direct load fails (error signal or timeout). -/
def failedAttempt (cs : List Source) (s : State) : State :=
  directFail cs (startLoad cs s)

/-- State after `k` consecutive failing attempts from the initial state. -/
def failIter (cs : List Source) (k : Nat) : State :=
  (failedAttempt cs)^[k] init

end V5


/-! Helper lemmas for the V1 machine. -/

theorem V1.failIter_succ (N k : Nat) :
    V1.failIter N (k + 1) = V1.failedAttempt N (V1.failIter N k) :=
  Function.iterate_succ_apply' (V1.failedAttempt N) k V1.init

/-- Closed form of a run of consecutive failing attempts in the V1
machine: after `k < 3 * N` failures the current index is `k / 3`, the
retry counter is `k % 3`, and the terminal error state has not been
entered.  Every source is attempted three times before the controller
advances. -/
theorem V1.failIter_formula (N : Nat) :
    ∀ k, k < 3 * N →
      (V1.failIter N k).currentSource = k / 3 ∧
      (V1.failIter N k).retryCount = k % 3 ∧
      (V1.failIter N k).hasError = false := by
  intro k
  induction k with
  | zero => intro hk; exact ⟨rfl, rfl, rfl⟩
  | succ k ih =>
    intro hk
    obtain ⟨h1, h2, h3⟩ := ih (Nat.lt_of_succ_lt hk)
    rw [V1.failIter_succ]
    generalize hg : V1.failIter N k = s at h1 h2 h3 ⊢
    rcases s with ⟨cs, he, msg, il, sc, ss, cq, csub, ql, st, ip, im, vol, prog, dur, ib, pr, rc⟩
    simp only at h1 h2 h3
    simp only [V1.failedAttempt, V1.trySourceStart, V1.onErrorEvt, V1.handleError]
    split_ifs with hA hB hC hD hE
    all_goals refine ⟨?_, ?_, ?_⟩ <;> simp_all <;> omega

theorem V1.phase_exhausted (s : V1.State) (h : s.hasError = true) :
    V1.phase s = .EXHAUSTED := by
  simp [V1.phase, h]

/-- C1, amended.  With `N ≥ 1` candidate sources and every attempt
failing, the V1 controller is not exhausted before `3 * N` failed
attempts; it reaches the terminal error state after exactly `3 * N`
failed attempts, still pointing at the last index.  The index after `k`
failures is `k / 3`: each source is automatically re-attempted twice (a
retry budget of three per source, `onError` lines 178 to 186) before the
controller advances, so the same index is automatically re-attempted
after a failure, contrary to the claim as stated. -/
theorem C1_exhaustion_after_three_N_failures (N : Nat) (hN : 1 ≤ N) :
    (∀ k, k < 3 * N → (V1.failIter N k).hasError = false) ∧
    (∀ k, k < 3 * N → (V1.failIter N k).currentSource = k / 3) ∧
    (V1.failIter N (3 * N)).hasError = true ∧
    (V1.failIter N (3 * N)).currentSource = N - 1 ∧
    V1.phase (V1.failIter N (3 * N)) = .EXHAUSTED := by
  have hform := V1.failIter_formula N
  refine ⟨fun k hk => (hform k hk).2.2, fun k hk => (hform k hk).1, ?_⟩
  obtain ⟨h1, h2, h3⟩ := hform (3 * N - 1) (by omega)
  have h3N : 3 * N = (3 * N - 1) + 1 := by omega
  have hHE : (V1.failIter N (3 * N)).hasError = true ∧
      (V1.failIter N (3 * N)).currentSource = N - 1 := by
    rw [h3N, V1.failIter_succ]
    clear h3N
    generalize hg : V1.failIter N (3 * N - 1) = s at h1 h2 h3 ⊢
    rcases s with ⟨cs, he, msg, il, sc, ss, cq, csub, ql, st, ip, im, vol, prog, dur, ib, pr, rc⟩
    simp only at h1 h2 h3
    simp only [V1.failedAttempt, V1.trySourceStart, V1.onErrorEvt, V1.handleError]
    split_ifs with hA hB hC hD hE
    all_goals refine ⟨?_, ?_⟩ <;> simp_all <;> omega
  exact ⟨hHE.1, hHE.2, V1.phase_exhausted _ hHE.1⟩

/-- C1, counterexample to the claim as stated.  Take the candidate list
length `N = 1` and let the single source fail: after exactly `N = 1`
failed attempt the controller has not reached the terminal error state
(so EXHAUSTED is not reached after exactly `N` attempts), the current
index is still `0`, and after a second automatic attempt at that same
index `0` the controller still points at index `0` and is still not
exhausted: the code automatically re-attempts the failed index, with a
backoff (`setTimeout(() => trySource(sourceIndex), 1000 * retryCountRef.current)`). -/
theorem C1_counterexample :
    (V1.failIter 1 1).hasError = false ∧
    (V1.failIter 1 1).currentSource = 0 ∧
    (V1.failIter 1 2).hasError = false ∧
    (V1.failIter 1 2).currentSource = 0 := by decide

/-- C1, witness: the amended theorem evaluated at the concrete length
`N = 1`: two failures leave the controller unexhausted, the third ends it. -/
theorem C1_witness :
    (V1.failIter 1 2).hasError = false ∧
    (V1.failIter 1 3).hasError = true ∧
    (V1.failIter 1 3).currentSource = 0 ∧
    V1.phase (V1.failIter 1 3) = Phase.EXHAUSTED := by
  have h := C1_exhaustion_after_three_N_failures 1 (by omega)
  exact ⟨h.1 2 (by omega), h.2.2.1, h.2.2.2.1, h.2.2.2.2⟩

/-- C7: from the EXHAUSTED state, the Try Again command (`resetPlayer`)
resets the current index to 0, clears the error flag and the error
message, re-enters the loading phase, resets the per-source retry
counter, and restores the fallback control fields exactly to their
fresh-session values, so the attempt sequence restarts from index 0 as if
the same request had been re-opened. -/
theorem C7_reset_restarts_from_zero (s : V1.State) (h : V1.phase s = Phase.EXHAUSTED) :
    (V1.resetPlayer s).currentSource = 0 ∧
    (V1.resetPlayer s).hasError = false ∧
    (V1.resetPlayer s).errorMessage = "" ∧
    (V1.resetPlayer s).isLoading = true ∧
    (V1.resetPlayer s).retryCount = 0 ∧
    V1.phase (V1.resetPlayer s) = Phase.LOADING ∧
    V1.ctrlProj (V1.resetPlayer s) = V1.ctrlProj V1.init :=
  ⟨rfl, rfl, rfl, rfl, rfl, rfl, rfl⟩

/-- C7, witness: the reset applied to the concrete exhausted state that a
single always-failing source produces. -/
theorem C7_witness :
    V1.phase (V1.failIter 1 3) = Phase.EXHAUSTED ∧
    V1.ctrlProj (V1.resetPlayer (V1.failIter 1 3)) = V1.ctrlProj V1.init := by
  have h := C7_reset_restarts_from_zero (V1.failIter 1 3) (by decide)
  exact ⟨by decide, h.2.2.2.2.2.2⟩

/-- C9: the candidate list is a deterministic function of the movie id
alone: it always has exactly 6 URLs, and it equals the fixed list of URL
stems with the decimal representation of the movie id appended to each,
so every URL contains (here: ends with) the decimal movie id, and two
constructions with the same movie id yield identical ordered lists. -/
theorem C9_sources_deterministic_shape (movieId : Nat) :
    (V1.videoSources movieId).length = 6 ∧
    V1.videoSources movieId = V1.urlStems.map (fun p => p ++ Nat.repr movieId) :=
  ⟨rfl, rfl⟩

/-- C10: `resetPlayer` modifies only the fallback control fields
(current index to 0, error flag, error message, loading flag, retry
counter) and leaves every playback settings field unchanged: volume,
muted, playback rate, progress, duration, selected quality, selected
subtitle track, and also the quality and subtitle lists, the playing,
buffering, controls and settings flags. -/
theorem C10_reset_touches_only_fallback_fields (s : V1.State) :
    (V1.resetPlayer s).currentSource = 0 ∧
    (V1.resetPlayer s).hasError = false ∧
    (V1.resetPlayer s).errorMessage = "" ∧
    (V1.resetPlayer s).isLoading = true ∧
    (V1.resetPlayer s).retryCount = 0 ∧
    (V1.resetPlayer s).volume = s.volume ∧
    (V1.resetPlayer s).isMuted = s.isMuted ∧
    (V1.resetPlayer s).playbackRate = s.playbackRate ∧
    (V1.resetPlayer s).progress = s.progress ∧
    (V1.resetPlayer s).duration = s.duration ∧
    (V1.resetPlayer s).currentQuality = s.currentQuality ∧
    (V1.resetPlayer s).currentSubtitle = s.currentSubtitle ∧
    (V1.resetPlayer s).qualityLevels = s.qualityLevels ∧
    (V1.resetPlayer s).subtitleTracks = s.subtitleTracks ∧
    (V1.resetPlayer s).isPlaying = s.isPlaying ∧
    (V1.resetPlayer s).isBuffering = s.isBuffering ∧
    (V1.resetPlayer s).showControls = s.showControls ∧
    (V1.resetPlayer s).showSettings = s.showSettings :=
  ⟨rfl, rfl, rfl, rfl, rfl, rfl, rfl, rfl, rfl, rfl, rfl, rfl, rfl, rfl, rfl, rfl, rfl, rfl⟩

/-- Helper: the per-source failure message of the V1 machine is never the
empty string. -/
theorem V1.sourceFailMsg_ne_empty (x y : String) : ("Source " ++ x ++ y) ≠ "" := by
  intro h
  have hlen := congrArg String.length h
  rw [String.length_append, String.length_append] at hlen
  have h7 : "Source ".length = 7 := rfl
  have h0 : "".length = 0 := rfl
  omega

/-- C8, amended.  In the V1 machine the failure that exhausts a source
retry budget while candidates remain sets a non-empty descriptive error
message; the message is then cleared at the start of the next attempt
(`trySource` sets it to the empty string whether or not that attempt will
succeed), not by the success callback (`onLoadedData` leaves the message
unchanged); consequently, when a successful load completes the attempt it
started with, the message is empty and the phase is a playing one. -/
theorem C8_message_set_and_cleared (N : Nat) (s : V1.State) (d : Rat)
    (hrc : s.retryCount = 2) (hcs : s.currentSource < N - 1) :
    (V1.onErrorEvt N s).errorMessage =
      "Source " ++ Nat.repr (s.currentSource + 1) ++ " failed, trying next..." ∧
    (V1.onErrorEvt N s).errorMessage ≠ "" ∧
    (∀ t : V1.State, t.currentSource < N → (V1.trySourceStart N t).errorMessage = "") ∧
    (∀ t : V1.State, (V1.onLoadedData d t).errorMessage = t.errorMessage) ∧
    (∀ t : V1.State, t.currentSource < N →
      (V1.onLoadedData d (V1.trySourceStart N t)).errorMessage = "" ∧
      V1.phase (V1.onLoadedData d (V1.trySourceStart N t)) ≠ Phase.EXHAUSTED ∧
      V1.phase (V1.onLoadedData d (V1.trySourceStart N t)) ≠ Phase.LOADING) := by
  have hmsg : (V1.onErrorEvt N s).errorMessage =
      "Source " ++ Nat.repr (s.currentSource + 1) ++ " failed, trying next..." := by
    unfold V1.onErrorEvt V1.handleError
    rw [if_neg (by omega), if_pos hcs]
  have hts : ∀ t : V1.State, t.currentSource < N →
      (V1.trySourceStart N t).errorMessage = "" := by
    intro t ht
    unfold V1.trySourceStart
    rw [if_neg (by omega)]
  refine ⟨hmsg, ?_, hts, fun t => rfl, fun t ht => ⟨?_, ?_, ?_⟩⟩
  · rw [hmsg]; exact V1.sourceFailMsg_ne_empty _ _
  · show (V1.trySourceStart N t).errorMessage = ""
    exact hts t ht
  · unfold V1.trySourceStart
    rw [if_neg (by omega)]
    unfold V1.phase V1.onLoadedData
    simp only []
    split_ifs <;> simp_all
  · unfold V1.trySourceStart
    rw [if_neg (by omega)]
    unfold V1.phase V1.onLoadedData
    simp only []
    split_ifs <;> simp_all

/-- C8, counterexample to the claim as stated.  With the real list of 6
sources, after the three failures that exhaust the retry budget of source
0 the error message is the non-empty per-source message; the very next
transition, the start of the attempt at source 1 (`trySource`), clears the
message while landing in the LOADING phase, which is not a playing phase
and not a success: so the message is not cleared exactly on a successful
transition into a playing phase. -/
theorem C8_counterexample :
    (V1.failIter 6 3).errorMessage = "Source 1 failed, trying next..." ∧
    (V1.trySourceStart 6 (V1.failIter 6 3)).errorMessage = "" ∧
    V1.phase (V1.trySourceStart 6 (V1.failIter 6 3)) = Phase.LOADING := by decide

/-- C8, witness: the amended theorem applied at a concrete state with the
retry budget exhausted at source 0 of 6. -/
theorem C8_witness :
    (V1.onErrorEvt 6 (V1.failIter 6 2)).errorMessage = "Source 1 failed, trying next..." ∧
    (V1.onErrorEvt 6 (V1.failIter 6 2)).errorMessage ≠ "" ∧
    (V1.trySourceStart 6 V1.init).errorMessage = "" ∧
    (V1.onLoadedData 100 (V1.trySourceStart 6 V1.init)).errorMessage = "" := by
  have h := C8_message_set_and_cleared 6 (V1.failIter 6 2) 100 (by decide) (by decide)
  refine ⟨?_, h.2.1, h.2.2.1 V1.init (by decide), (h.2.2.2.2 V1.init (by decide)).1⟩
  rw [h.1]
  decide

/-! Helper lemmas for the V5 machine. -/

theorem V5.length_videoSources (m : Nat) : (V5.videoSources m).length = 8 := rfl

theorem V5.failSeq_succ (cs : List V5.Source) (k : Nat) :
    V5.failIter cs (k + 1) = V5.failedAttempt cs (V5.failIter cs k) :=
  Function.iterate_succ_apply' (V5.failedAttempt cs) k V5.init

/-- Closed form of a run of consecutive failing attempts in the V5
machine: each failure advances by exactly one index (part_005 has no
per-source retry budget), so after `k ≤ 7` failing attempts the current
index is `k` and the terminal error state has not been entered. -/
theorem V5.failSeq_formula (m : Nat) :
    ∀ k, k ≤ 7 →
      (V5.failIter (V5.videoSources m) k).currentSource = k ∧
      (V5.failIter (V5.videoSources m) k).hasError = false := by
  intro k
  induction k with
  | zero => intro hk; exact ⟨rfl, rfl⟩
  | succ k ih =>
    intro hk
    obtain ⟨h1, h2⟩ := ih (by omega)
    rw [V5.failSeq_succ]
    generalize hg : V5.failIter (V5.videoSources m) k = s at h1 h2 ⊢
    rcases s with ⟨cs, he, msg, il, ui, cpd, rc, ip, im, vol, prog, dur, ib, pr, vp, vm, vv, vt, vr⟩
    simp only at h1 h2
    simp only [V5.failedAttempt, V5.startLoad, V5.directFail, V5.handleError,
      V5.length_videoSources]
    split_ifs with hA hB hC
    all_goals refine ⟨?_, ?_⟩ <;> simp_all <;> omega

theorem V5.phase_embed_of (s : V5.State) (he : s.hasError = false)
    (hc : s.canPlayDirectly = false) (hu : s.useIframe = true) :
    V5.phase s = Phase.PLAYING_EMBED := by
  simp [V5.phase, he, hc, hu]

theorem V5.phase_direct_of (s : V5.State) (he : s.hasError = false)
    (hc : s.canPlayDirectly = true) (hb : s.isBuffering = false) :
    V5.phase s = Phase.PLAYING_DIRECT := by
  simp [V5.phase, he, hc, hb]

theorem V5.phase_exhausted_of (s : V5.State) (he : s.hasError = true) :
    V5.phase s = Phase.EXHAUSTED := by
  simp [V5.phase, he]

/-- C2, amended.  With the part_005 candidate list, if the first `k`
attempts fail (one failure per index: part_005 advances on every failure)
and the attempt at index `k` then resolves successfully, the current index
is `k` after those `k + 1` attempts, and the phase reflects the resolution
path of the successful attempt: PLAYING_DIRECT when it resolved through a
direct load (`loadeddata` then `canplay`, the normal path for kind
DIRECT), PLAYING_EMBED when it resolved through the iframe fallback (the
normal path for kind EMBED, taken when `extractDirectVideoUrl` yields
nothing).  The phase tracks the resolution path, not the kind tag: an
EMBED candidate whose extracted direct URL loads ends in PLAYING_DIRECT. -/
theorem C2_success_at_k (m k : Nat) (hk : k ≤ 7) (d : ℚ) :
    (V5.directSuccess d (V5.startLoad (V5.videoSources m)
        (V5.failIter (V5.videoSources m) k))).currentSource = k ∧
    V5.phase (V5.directSuccess d (V5.startLoad (V5.videoSources m)
        (V5.failIter (V5.videoSources m) k))) = Phase.PLAYING_DIRECT ∧
    (V5.embedFallback (V5.startLoad (V5.videoSources m)
        (V5.failIter (V5.videoSources m) k))).currentSource = k ∧
    V5.phase (V5.embedFallback (V5.startLoad (V5.videoSources m)
        (V5.failIter (V5.videoSources m) k))) = Phase.PLAYING_EMBED := by
  obtain ⟨h1, h2⟩ := V5.failSeq_formula m k hk
  generalize hg : V5.failIter (V5.videoSources m) k = s at h1 h2 ⊢
  have hs : V5.startLoad (V5.videoSources m) s =
      { s with isLoading := true
               hasError := false
               errorMessage := "Loading " ++ V5.nameAt (V5.videoSources m) s.currentSource ++ "..."
               useIframe := false
               canPlayDirectly := false } := by
    unfold V5.startLoad
    rw [if_neg (by simp only [V5.length_videoSources]; omega)]
  rw [hs]
  refine ⟨?_, ?_, ?_, ?_⟩
  · show s.currentSource = k
    exact h1
  · exact V5.phase_direct_of _ rfl rfl rfl
  · show s.currentSource = k
    exact h1
  · exact V5.phase_embed_of _ rfl rfl rfl

/-- C2, counterexample to the claim as stated.  The candidate at index 2
has kind EMBED; after the two direct candidates fail, the attempt at
index 2 can succeed through the URL-extraction path of `tryLoadSource`
(lines 181 to 183: `extractDirectVideoUrl` returns a URL and
`tryDirectVideo` succeeds), after which `currentSource = 2` but the phase
is PLAYING_DIRECT, not PLAYING_EMBED as the claim requires for an EMBED
kind. -/
theorem C2_counterexample :
    ((V5.videoSources 0).getD 2 V5.dfltSource).kind = V5.SourceKind.embed ∧
    (V5.directSuccess 100 (V5.startLoad (V5.videoSources 0)
        (V5.failIter (V5.videoSources 0) 2))).currentSource = 2 ∧
    V5.phase (V5.directSuccess 100 (V5.startLoad (V5.videoSources 0)
        (V5.failIter (V5.videoSources 0) 2))) = Phase.PLAYING_DIRECT := by decide

/-- C2, witness: the amended theorem at movie id 0 and `k = 2`: the EMBED
candidate at index 2, succeeding through its normal iframe fallback after
the two direct candidates fail, gives `currentSource = 2` and phase
PLAYING_EMBED after exactly 3 attempts. -/
theorem C2_witness :
    ((V5.videoSources 0).getD 2 V5.dfltSource).kind = V5.SourceKind.embed ∧
    (V5.embedFallback (V5.startLoad (V5.videoSources 0)
        (V5.failIter (V5.videoSources 0) 2))).currentSource = 2 ∧
    V5.phase (V5.embedFallback (V5.startLoad (V5.videoSources 0)
        (V5.failIter (V5.videoSources 0) 2))) = Phase.PLAYING_EMBED := by
  have h := C2_success_at_k 0 2 (by omega) 100
  exact ⟨by decide, h.2.2.1, h.2.2.2⟩

/-- The two-sided C3 invariant: while not in the terminal error state the
current index is inside the candidate list; in the terminal error state it
is the last index.  It is preserved by every event except the stale
failure callback (see `C3_counterexample`). -/
def V5.Inv (cs : List V5.Source) (s : V5.State) : Prop :=
  (s.hasError = false → s.currentSource < cs.length) ∧
  (s.hasError = true → s.currentSource = cs.length - 1)

/-- The index bound `currentSource < length(candidates)` alone is
preserved by every event of the machine, the stale failure callback
included. -/
theorem V5.step_preserves_indexBound (m : Nat) (e : V5.Event) (s : V5.State)
    (h : s.currentSource < (V5.videoSources m).length) :
    (V5.step (V5.videoSources m) e s).currentSource < (V5.videoSources m).length := by
  rcases s with ⟨cs, he, msg, il, ui, cpd, rc, ip, im, vol, prog, dur, ib, pr, vp, vm, vv, vt, vr⟩
  simp only [V5.length_videoSources] at h ⊢
  cases e <;>
    simp only [V5.step, V5.startLoad, V5.directFail, V5.staleCallback, V5.handleError,
      V5.loadedData, V5.canPlayEvt, V5.embedFallback, V5.switchToNextSource, V5.resetPlayer,
      V5.togglePlay, V5.toggleMute, V5.adjustVolume, V5.handleVolumeChange,
      V5.skipForward, V5.skipBackward, V5.handleProgressChange,
      V5.handlePlaybackRateChange, V5.length_videoSources] <;>
    (try split_ifs) <;> (try simp_all) <;> (try omega)

theorem V5.run_preserves_indexBound (m : Nat) (es : List V5.Event) :
    ∀ s : V5.State, s.currentSource < (V5.videoSources m).length →
      (V5.run (V5.videoSources m) es s).currentSource < (V5.videoSources m).length := by
  induction es with
  | nil => intro s hs; exact hs
  | cons e es ih => intro s hs; exact ih _ (V5.step_preserves_indexBound m e s hs)

/-- Every non-stale event preserves the two-sided invariant. -/
theorem V5.step_preserves_Inv (m : Nat) (e : V5.Event) (s : V5.State)
    (hns : V5.Event.isStale e = false)
    (h : V5.Inv (V5.videoSources m) s) :
    V5.Inv (V5.videoSources m) (V5.step (V5.videoSources m) e s) := by
  obtain ⟨h1, h2⟩ := h
  rcases s with ⟨cs, he, msg, il, ui, cpd, rc, ip, im, vol, prog, dur, ib, pr, vp, vm, vv, vt, vr⟩
  cases e
  case staleFail idx => exact absurd hns (by simp [V5.Event.isStale])
  all_goals
    cases he <;>
    simp only [V5.length_videoSources] at h1 h2 <;>
    unfold V5.Inv <;>
    simp only [V5.length_videoSources] <;>
    simp only [V5.step, V5.startLoad, V5.directFail, V5.handleError, V5.loadedData,
      V5.canPlayEvt, V5.embedFallback, V5.switchToNextSource, V5.resetPlayer,
      V5.togglePlay, V5.toggleMute, V5.adjustVolume, V5.handleVolumeChange,
      V5.skipForward, V5.skipBackward, V5.handleProgressChange,
      V5.handlePlaybackRateChange, V5.length_videoSources] <;>
    (try split_ifs) <;>
    refine ⟨fun hh => ?_, fun hh => ?_⟩ <;> (try simp_all) <;> (try omega)

theorem V5.run_preserves_Inv (m : Nat) :
    ∀ es : List V5.Event, es.all (fun e => !V5.Event.isStale e) = true →
      ∀ s : V5.State, V5.Inv (V5.videoSources m) s →
        V5.Inv (V5.videoSources m) (V5.run (V5.videoSources m) es s) := by
  intro es
  induction es with
  | nil => intro _ s hs; exact hs
  | cons e es ih =>
    intro hall s hs
    rw [List.all_cons, Bool.and_eq_true] at hall
    have he : V5.Event.isStale e = false := by
      have h1 := hall.1
      simp only [Bool.not_eq_true'] at h1
      exact h1
    exact ih hall.2 _ (V5.step_preserves_Inv m e s he hs)

/-- The trace of C3_counterexample: source 0 (direct) fails; the attempt
at source 1 (direct) starts and stays pending, its 10 second timer armed
and never cancelled; the user presses Try Next Source (shown while
loading a source of index above 0) and then repeatedly on the iframe
views, walking through sources 2 to 7; at source 7 one more press takes
the exhaust branch of `switchToNextSource` (hasError, message
"All sources have been tried."); then the stale timer of the superseded
attempt at index 1 fires. -/
def V5.exhaustThenStaleDemo : List V5.Event :=
  [.startLoad, .directFail, .startLoad, .switchNext, .startLoad, .embedFallback,
   .switchNext, .startLoad, .embedFallback, .switchNext, .startLoad, .embedFallback,
   .switchNext, .startLoad, .embedFallback, .switchNext, .startLoad, .embedFallback,
   .switchNext, .startLoad, .embedFallback, .switchNext, .staleFail 1]

/-- C3, counterexample to the claim as stated.  Just before the stale
timer fires the session is exhausted with `currentSource = 7 = length - 1`;
the stale failure callback of the superseded attempt at index 1 is a real
transition of part_005 (no generation counter, no clearTimeout), and after
it the session still has `hasError = true` (phase EXHAUSTED) but
`currentSource = 2`, which is not `length - 1`, with the loading flag
turned back on (the effect on `currentSource` starts a further automatic
attempt).  So in the EXHAUSTED phase the index can differ from
`length - 1` and further automatic attempts can occur. -/
theorem C3_counterexample :
    (V5.run (V5.videoSources 0) (V5.exhaustThenStaleDemo.take 22) V5.init).hasError = true ∧
    (V5.run (V5.videoSources 0) (V5.exhaustThenStaleDemo.take 22) V5.init).currentSource = 7 ∧
    V5.Reachable (V5.videoSources 0) (V5.run (V5.videoSources 0) V5.exhaustThenStaleDemo V5.init) ∧
    (V5.run (V5.videoSources 0) V5.exhaustThenStaleDemo V5.init).hasError = true ∧
    V5.phase (V5.run (V5.videoSources 0) V5.exhaustThenStaleDemo V5.init) = Phase.EXHAUSTED ∧
    (V5.run (V5.videoSources 0) V5.exhaustThenStaleDemo V5.init).currentSource = 2 ∧
    (V5.videoSources 0).length - 1 = 7 ∧
    (V5.run (V5.videoSources 0) V5.exhaustThenStaleDemo V5.init).isLoading = true := by
  refine ⟨?_, ?_, ⟨V5.exhaustThenStaleDemo, rfl⟩, ?_, ?_, ?_, ?_, ?_⟩ <;> decide

/-- C3, amended.  In every reachable session state of the part_005
machine, under every operation including failure-driven advancement,
manual switching, reset, the playback commands and the stale failure
callbacks that part_005 really admits, the current index satisfies
`0 ≤ currentSource < length(candidates)`; in particular the bound holds
whenever the phase is not EXHAUSTED.  Along traces with no stale
callback, the EXHAUSTED half of the original claim also holds: the index
is then `length - 1` in the error state and a further failure signal
changes neither the index nor the error flag.  A stale callback can break
that half (see the counterexample), so it is asserted only stale-free. -/
theorem C3_amended_index_bound (m : Nat) (s : V5.State) (es : List V5.Event)
    (h : s = V5.run (V5.videoSources m) es V5.init) :
    s.currentSource < (V5.videoSources m).length ∧
    (es.all (fun e => !V5.Event.isStale e) = true →
      (s.hasError = false → s.currentSource < (V5.videoSources m).length) ∧
      (s.hasError = true → s.currentSource = (V5.videoSources m).length - 1) ∧
      (s.hasError = true →
        (V5.directFail (V5.videoSources m) s).currentSource = s.currentSource ∧
        (V5.directFail (V5.videoSources m) s).hasError = true)) := by
  subst h
  have hInit : V5.Inv (V5.videoSources m) V5.init :=
    ⟨fun _ => by simp [V5.length_videoSources, V5.init], fun hc => by simp [V5.init] at hc⟩
  refine ⟨?_, fun hall => ?_⟩
  · exact V5.run_preserves_indexBound m es V5.init
      (by simp [V5.length_videoSources, V5.init])
  · have hInv := V5.run_preserves_Inv m es hall V5.init hInit
    refine ⟨hInv.1, hInv.2, fun hE => ?_⟩
    have hcs := hInv.2 hE
    unfold V5.directFail V5.handleError
    rw [if_neg (by simp only [V5.length_videoSources] at hcs ⊢; omega)]
    exact ⟨rfl, rfl⟩

/-- C3, witness: the amended theorem applied to the empty trace: the
fresh session satisfies the index bound, and on the (stale-free) empty
trace the error flag is false with the index inside the list. -/
theorem C3_witness :
    V5.init.currentSource < (V5.videoSources 0).length ∧
    (V5.init.hasError = false → V5.init.currentSource < (V5.videoSources 0).length) ∧
    (V5.init.hasError = true → V5.init.currentSource = (V5.videoSources 0).length - 1) := by
  have h := C3_amended_index_bound 0 V5.init [] rfl
  have h2 := h.2 (by decide)
  exact ⟨h.1, h2.1, h2.2.1⟩

/-- C4, amended.  Only direct video loads have a timeout: `tryDirectVideo`
arms a fixed 10000 ms timer, and if no success or failure signal has
resolved the attempt when it fires, the attempt fails and the controller
advances or, with nothing left, enters the terminal error state (here
shown with a single direct candidate: the timeout leads straight to
EXHAUSTED).  An embed attempt that takes the iframe fallback completes
immediately as PLAYING_EMBED with no timer armed and no failure signal
possible, so absence of any signal does not make an embed attempt fail. -/
theorem C4_timeout_only_for_direct (m : Nat) (u nm : String) :
    V5.timeoutMs = 10000 ∧
    (V5.timeoutExpire [⟨V5.SourceKind.direct, u, nm⟩]
        (V5.startLoad [⟨V5.SourceKind.direct, u, nm⟩] V5.init)).hasError = true ∧
    V5.phase (V5.timeoutExpire [⟨V5.SourceKind.direct, u, nm⟩]
        (V5.startLoad [⟨V5.SourceKind.direct, u, nm⟩] V5.init)) = Phase.EXHAUSTED ∧
    (∀ s : V5.State, s.currentSource < (V5.videoSources m).length →
      V5.phase (V5.embedFallback (V5.startLoad (V5.videoSources m) s)) = Phase.PLAYING_EMBED ∧
      (V5.embedFallback (V5.startLoad (V5.videoSources m) s)).isLoading = false ∧
      (V5.embedFallback (V5.startLoad (V5.videoSources m) s)).hasError = false) := by
  refine ⟨rfl, rfl, rfl, fun s hs => ?_⟩
  have hsl : V5.startLoad (V5.videoSources m) s =
      { s with isLoading := true
               hasError := false
               errorMessage := "Loading " ++ V5.nameAt (V5.videoSources m) s.currentSource ++ "..."
               useIframe := false
               canPlayDirectly := false } := by
    unfold V5.startLoad
    rw [if_neg (by omega)]
  rw [hsl]
  exact ⟨V5.phase_embed_of _ rfl rfl rfl, rfl, rfl⟩

/-- C4, counterexample to the claim as stated.  With the real candidate
list, the attempt at index 3 (kind EMBED) receives no success or failure
signal at all, yet it does not transition to FAILED_SOURCE after the
timeout window: the iframe fallback completes it immediately as
PLAYING_EMBED (not loading, not failed), and no timer was armed for it
(the embed branch of `tryLoadSource`, lines 184 to 189, creates none). -/
theorem C4_counterexample :
    ((V5.videoSources 0).getD 3 V5.dfltSource).kind = V5.SourceKind.embed ∧
    V5.phase (V5.embedFallback (V5.startLoad (V5.videoSources 0)
        (V5.failIter (V5.videoSources 0) 3))) = Phase.PLAYING_EMBED ∧
    (V5.embedFallback (V5.startLoad (V5.videoSources 0)
        (V5.failIter (V5.videoSources 0) 3))).isLoading = false ∧
    (V5.embedFallback (V5.startLoad (V5.videoSources 0)
        (V5.failIter (V5.videoSources 0) 3))).hasError = false := by decide

/-- C4, witness: the amended theorem evaluated at concrete inputs: the
timeout on a single direct candidate reaches EXHAUSTED, while an embed
attempt with no signal ends as PLAYING_EMBED. -/
theorem C4_witness :
    (V5.timeoutExpire [⟨V5.SourceKind.direct, "u", "n"⟩]
        (V5.startLoad [⟨V5.SourceKind.direct, "u", "n"⟩] V5.init)).hasError = true ∧
    V5.phase (V5.embedFallback (V5.startLoad (V5.videoSources 0) V5.init)) =
      Phase.PLAYING_EMBED := by
  have h := C4_timeout_only_for_direct 0 "u" "n"
  exact ⟨h.2.1, (h.2.2.2 V5.init (by decide)).1⟩

/-- A concrete interleaving of part_005: source 0 (direct) fails, the
attempt at source 1 (direct) starts and stays pending, the user presses
Try Next Source (shown while loading a source with index above 0), source
2 resolves as an iframe embed, the user presses Try Next Source again,
and source 3 resolves as an iframe embed.  The 10 second timer of the
superseded attempt at index 1 is still armed: nothing ever cancels it. -/
def V5.staleDemoPre : V5.State :=
  V5.run (V5.videoSources 0)
    [.startLoad, .directFail, .startLoad, .switchNext, .startLoad, .embedFallback,
     .switchNext, .startLoad, .embedFallback] V5.init

/-- C5, counterexample to the claim as stated.  part_005 has no
generation counter: when the uncancelled timer of the superseded attempt
at index 1 fires, its closure rejects the still-pending promise of that
attempt and `handleError` runs with the captured index 1, overwriting the
session: the current index jumps from 3 back to 2, the loading flag
turns back on, and the error message is rewritten, while the user was
watching source 3.  A stale callback from a superseded attempt does
change the session state. -/
theorem C5_counterexample :
    V5.staleDemoPre.currentSource = 3 ∧
    V5.phase V5.staleDemoPre = Phase.PLAYING_EMBED ∧
    (V5.staleCallback (V5.videoSources 0) 1 V5.staleDemoPre).currentSource = 2 ∧
    (V5.staleCallback (V5.videoSources 0) 1 V5.staleDemoPre).isLoading = true ∧
    V5.staleCallback (V5.videoSources 0) 1 V5.staleDemoPre ≠ V5.staleDemoPre := by decide

/-- C5, amended.  part_005 tags no attempt with a generation counter and
cancels no pending timer when an attempt is superseded: a stale failure
callback carrying the captured index `idx` of a superseded attempt is
processed by `handleError` in every state, and whenever candidates remain
after `idx` it sets the current index to `idx + 1`, turns the loading
flag on and rewrites the error message, regardless of the current state. -/
theorem C5_stale_callback_changes_state (m idx : Nat) (s : V5.State)
    (h : idx < (V5.videoSources m).length - 1) :
    (V5.staleCallback (V5.videoSources m) idx s).currentSource = idx + 1 ∧
    (V5.staleCallback (V5.videoSources m) idx s).isLoading = true ∧
    (V5.staleCallback (V5.videoSources m) idx s).errorMessage =
      V5.nameAt (V5.videoSources m) idx ++ " failed, trying next..." := by
  unfold V5.staleCallback V5.handleError
  rw [if_pos h]
  exact ⟨rfl, rfl, rfl⟩

/-- C5, witness: the amended theorem at movie id 0, stale index 0, in the
initial state. -/
theorem C5_witness :
    (V5.staleCallback (V5.videoSources 0) 0 V5.init).currentSource = 1 ∧
    (V5.staleCallback (V5.videoSources 0) 0 V5.init).isLoading = true := by
  have h := C5_stale_callback_changes_state 0 0 V5.init (by decide)
  exact ⟨h.1, h.2.1⟩

/-- C6, counterexample to the claim as stated.  The claim also covers the
seek command of VideoPlayer.tsx (`handleProgressChange`, lines 358 to
363), which has no phase guard: only the null check on
`playerRef.current`, and the player object exists from the mount effect
onward (loading and the error flag are not effect dependencies).  In the
LOADING state right after the first attempt starts, the phase is neither
PLAYING_DIRECT nor BUFFERING, yet seeking to position 42 writes 42 into
`progress`, changing the session state: the command is not a no-op for
this cited variant. -/
theorem C6_counterexample :
    V1.phase (V1.trySourceStart 6 V1.init) = Phase.LOADING ∧
    (V1.trySourceStart 6 V1.init).progress = 0 ∧
    (V1.handleProgressChange true 42 (V1.trySourceStart 6 V1.init)).progress = 42 ∧
    V1.handleProgressChange true 42 (V1.trySourceStart 6 V1.init) ≠
      V1.trySourceStart 6 V1.init := by decide

/-- C6, amended.  In part_005 every DIRECT-only command (play or pause
toggle, mute toggle, volume adjustment and volume slider, skip forward
and backward, the seek slider, playback rate change) is a no-op in every
state whose phase is neither PLAYING_DIRECT nor BUFFERING: the common
guard `if (!canPlayDirectly || !videoRef.current) return` exits before
touching anything, so the call does not throw and the session state is
unchanged; in particular seeking while the phase is PLAYING_EMBED changes
nothing.  In the VideoPlayer.tsx variant the seek command has no phase
guard: whenever the player object exists it writes the seek position into
`progress` in any phase; it still never throws and touches nothing except
`progress` (all other fields and the phase are unchanged), and with no
player it is a no-op. -/
theorem C6_amended_guard_only_in_part005 (s : V5.State) (v dlt r : ℚ)
    (t : V1.State) (pa : Bool)
    (h1 : V5.phase s ≠ Phase.PLAYING_DIRECT) (h2 : V5.phase s ≠ Phase.BUFFERING) :
    (V5.togglePlay s = s ∧
     V5.toggleMute s = s ∧
     V5.adjustVolume dlt s = s ∧
     V5.handleVolumeChange v s = s ∧
     V5.skipForward s = s ∧
     V5.skipBackward s = s ∧
     V5.handleProgressChange v s = s ∧
     V5.handlePlaybackRateChange r s = s) ∧
    ((V1.handleProgressChange pa v t).currentSource = t.currentSource ∧
     (V1.handleProgressChange pa v t).hasError = t.hasError ∧
     (V1.handleProgressChange pa v t).errorMessage = t.errorMessage ∧
     (V1.handleProgressChange pa v t).isLoading = t.isLoading ∧
     (V1.handleProgressChange pa v t).retryCount = t.retryCount ∧
     (V1.handleProgressChange pa v t).volume = t.volume ∧
     (V1.handleProgressChange pa v t).isMuted = t.isMuted ∧
     (V1.handleProgressChange pa v t).duration = t.duration ∧
     (V1.handleProgressChange pa v t).playbackRate = t.playbackRate ∧
     (V1.handleProgressChange pa v t).currentQuality = t.currentQuality ∧
     (V1.handleProgressChange pa v t).currentSubtitle = t.currentSubtitle ∧
     V1.phase (V1.handleProgressChange pa v t) = V1.phase t ∧
     (pa = true → (V1.handleProgressChange pa v t).progress = v) ∧
     (pa = false → V1.handleProgressChange pa v t = t)) := by
  have hguard : V5.guardDirect s = false := by
    by_cases he : s.hasError
    · simp [V5.guardDirect, V5.videoAttached, he]
    · by_cases hc : s.canPlayDirectly
      · exfalso
        by_cases hb : s.isBuffering
        · exact h2 (by simp [V5.phase, he, hc, hb])
        · exact h1 (by simp [V5.phase, he, hc, hb])
      · simp [V5.guardDirect, hc]
  constructor
  · unfold V5.togglePlay V5.toggleMute V5.adjustVolume V5.handleVolumeChange
      V5.skipForward V5.skipBackward V5.handleProgressChange V5.handlePlaybackRateChange
    rw [hguard]
    simp
  · cases pa <;>
      simp [V1.handleProgressChange, V1.phase]

/-- C6, witness: seeking to position 42 while the part_005 controller is
in PLAYING_EMBED at the first source leaves that state unchanged, and the
V1 seek on the fresh state with the player present keeps every field but
`progress`, where it writes 42. -/
theorem C6_witness :
    V5.phase (V5.embedFallback (V5.startLoad (V5.videoSources 0) V5.init)) =
      Phase.PLAYING_EMBED ∧
    V5.handleProgressChange 42 (V5.embedFallback (V5.startLoad (V5.videoSources 0) V5.init)) =
      V5.embedFallback (V5.startLoad (V5.videoSources 0) V5.init) ∧
    (V1.handleProgressChange true 42 V1.init).isLoading = V1.init.isLoading ∧
    (V1.handleProgressChange true 42 V1.init).progress = 42 := by
  have h := C6_amended_guard_only_in_part005
    (V5.embedFallback (V5.startLoad (V5.videoSources 0) V5.init)) 42 0 1 V1.init true
    (by decide) (by decide)
  obtain ⟨hv5, hcs, hhe, hmsg, hil, hrc, hvol, hmut, hdur, hpr, hq, hsub, hph, hset, hnop⟩ := h
  exact ⟨by decide, hv5.2.2.2.2.2.2.1, hil, hset rfl⟩
